import Mathlib

/-!
Verification development for the Sunseeker lawn-mower Home Assistant
integration (`custom_components/sunseeker`).  The Python source is shallowly
embedded: JSON values become the inductive `JVal`, Python dicts become
association lists, the coordinator's mutable attributes become the record
`CoordState`, and each coroutine of interest becomes a pure Lean function
whose result records what was returned/raised and what was published.
-/

namespace Sunseeker

/-- JSON values as produced by `json.loads` / consumed by `json.dumps`.
Numbers are restricted to integers: every numeric literal in the
integration's protocol (cmd codes, modes, minutes, battery, ...) is an
integer. -/
inductive JVal where
  | null
  | bool (b : Bool)
  | num (n : Int)
  | str (s : String)
  | arr (xs : List JVal)
  | obj (fields : List (String × JVal))

/-- A Python dict with string keys holding JSON values (one JSON object). -/
abbrev JObj := List (String × JVal)

/-- Python `d.get(key)` / `d[key]` lookup on a dict modelled as an
association list: first binding wins. -/
def objGet : JObj → String → Option JVal
  | [], _ => none
  | (k, v) :: rest, key => if k = key then some v else objGet rest key

/-- Python truthiness (`if x:`) for JSON-decoded values. -/
def truthy : JVal → Bool
  | .null => false
  | .bool b => b
  | .num n => n != 0
  | .str s => s != ""
  | .arr xs => !xs.isEmpty
  | .obj fs => !fs.isEmpty

/-- Python `==` between a JSON-decoded value and an integer constant.
In Python `bool` is a subtype of `int`, so `True == 1` and `False == 0`. -/
def pyEqInt : JVal → Int → Bool
  | .num n, k => n == k
  | .bool b, k => (if b then (1 : Int) else 0) == k
  | _, _ => false

/-- `data.get("cmd") == k`: a missing key gives Python `None`, which is
`==`-equal to no integer. -/
def pyEqOpt (o : Option JVal) (k : Int) : Bool :=
  match o with
  | some v => pyEqInt v k
  | none => false

/-- Python dict merge `{**a, **b}`: the keys of `a` in order (values
overridden by `b` where present), then the keys of `b` not in `a`. -/
def pyMerge (a b : JObj) : JObj :=
  a.map (fun kv => (kv.1, (objGet b kv.1).getD kv.2)) ++
    b.filter (fun kv => (objGet a kv.1).isNone)

theorem objGet_append (xs ys : JObj) (k : String) :
    objGet (xs ++ ys) k = (objGet xs k).orElse (fun _ => objGet ys k) := by
  induction xs with
  | nil => simp [objGet]
  | cons p rest ih =>
    by_cases h : p.1 = k
    · simp [objGet, h, Option.orElse]
    · simp [objGet, h, ih]

theorem objGet_map_override (a b : JObj) (k : String) :
    objGet (a.map (fun kv => (kv.1, (objGet b kv.1).getD kv.2))) k =
      (objGet a k).map (fun v => (objGet b k).getD v) := by
  induction a with
  | nil => simp [objGet]
  | cons p rest ih =>
    by_cases h : p.1 = k
    · subst h; simp [objGet]
    · simp [objGet, h, ih]

theorem objGet_filter_absent (a b : JObj) (k : String) :
    objGet (b.filter (fun kv => (objGet a kv.1).isNone)) k =
      if (objGet a k).isNone then objGet b k else none := by
  induction b with
  | nil => simp [objGet]
  | cons p rest ih =>
    by_cases hk : p.1 = k
    · subst hk
      cases ha : objGet a p.1 with
      | none => simp [List.filter, ha, objGet]
      | some w =>
        simp only [List.filter, ha, Option.isNone_some]
        simpa [ha] using ih
    · cases ha : objGet a p.1 with
      | none =>
        simp only [List.filter, ha, Option.isNone_none]
        simp [objGet, hk, ih]
      | some w =>
        simp only [List.filter, ha, Option.isNone_some]
        simp [objGet, hk, ih]

/-- Field lookup on the Python merge `{**a, **b}`: a field of `b` wins,
otherwise the field of `a` is untouched. -/
theorem objGet_pyMerge (a b : JObj) (k : String) :
    objGet (pyMerge a b) k = (objGet b k).orElse (fun _ => objGet a k) := by
  rw [pyMerge, objGet_append, objGet_map_override, objGet_filter_absent]
  cases hga : objGet a k with
  | none =>
    cases hgb : objGet b k with
    | none => simp [Option.orElse]
    | some w => simp [Option.orElse]
  | some v =>
    cases hgb : objGet b k with
    | none => simp [Option.orElse]
    | some w => simp [Option.orElse]

/-- Python `str.strip()` whitespace test (ASCII whitespace; the integration
only ever handles ASCII identifiers). -/
def isPyWs (c : Char) : Bool :=
  c == ' ' || c == '\t' || c == '\n' || c == '\r' || c == '\x0b' || c == '\x0c'

/-- Python `s.strip()`: drop leading and trailing whitespace. -/
def pyStrip (s : String) : String :=
  String.mk (((s.data.dropWhile isPyWs).reverse.dropWhile isPyWs).reverse)

/-- Digit run of a Python integer literal: digits optionally separated by
single underscores (`int("1_0") == 10`). -/
def digitsVal : List Char → Nat → Option Nat
  | [], acc => some acc
  | '_' :: c :: cs, acc =>
      if c.isDigit then digitsVal cs (acc * 10 + (c.toNat - 48)) else none
  | c :: cs, acc =>
      if c.isDigit then digitsVal cs (acc * 10 + (c.toNat - 48)) else none

/-- Unsigned part of `int(str)`: must start with a digit. -/
def natPart : List Char → Option Nat
  | c :: cs => if c.isDigit then digitsVal cs (c.toNat - 48) else none
  | [] => none

/-- Python `int(s)` on a string: strip whitespace, optional sign, digits. -/
def pyIntOfStr (s : String) : Option Int :=
  match (pyStrip s).data with
  | '+' :: rest => (natPart rest).map Int.ofNat
  | '-' :: rest => (natPart rest).map (fun n => -(Int.ofNat n))
  | rest => (natPart rest).map Int.ofNat

/-- Python `int(x)` on a JSON-decoded value: ints pass through, bools are
0/1, numeric strings are parsed; `None`, lists and dicts raise
(`none` here). -/
def pyInt : JVal → Option Int
  | .num n => some n
  | .bool b => some (if b then 1 else 0)
  | .str s => pyIntOfStr s
  | _ => none

/-- Python `for x in v`: lists yield elements, strings yield one-character
strings, dicts yield their keys; other values raise `TypeError` (`none`). -/
def pyIter : JVal → Option (List JVal)
  | .arr xs => some xs
  | .str s => some (s.data.map (fun c => JVal.str (String.mk [c])))
  | .obj fs => some (fs.map (fun kv => JVal.str kv.1))
  | _ => none

mutual

/-- Python `repr` of a JSON-decoded value (string escaping omitted: the
fields the integration reprs are plain words). -/
def pyRepr : JVal → String
  | .null => "None"
  | .bool true => "True"
  | .bool false => "False"
  | .num n => toString n
  | .str s => "\x27" ++ s ++ "\x27"
  | .arr xs => "[" ++ pyReprList xs ++ "]"
  | .obj fs => "\x7b" ++ pyReprFields fs ++ "\x7d"

def pyReprList : List JVal → String
  | [] => ""
  | [x] => pyRepr x
  | x :: y :: xs => pyRepr x ++ ", " ++ pyReprList (y :: xs)

def pyReprFields : List (String × JVal) → String
  | [] => ""
  | [kv] => "\x27" ++ kv.1 ++ "\x27: " ++ pyRepr kv.2
  | kv :: f :: fs => "\x27" ++ kv.1 ++ "\x27: " ++ pyRepr kv.2 ++ ", " ++ pyReprFields (f :: fs)

end

/-- Python `str(x)`: identity on strings, `repr` otherwise. -/
def pyStr (v : JVal) : String :=
  match v with
  | .str s => s
  | other => pyRepr other

/-! ### Constants (`const.py`) -/

def DOMAIN : String := "sunseeker"

def DEFAULT_TOPIC_BASE : String := "device"

def CMD_STOP : JObj := [("cmd", .num 101), ("mode", .num 0)]

def CMD_START_MOWING : JObj := [("cmd", .num 101), ("mode", .num 1)]

def CMD_RETURN_DOCK : JObj := [("cmd", .num 101), ("mode", .num 2)]

def CMD_EDGE_CUTTING : JObj := [("cmd", .num 101), ("mode", .num 4)]

def CMD_STATUS_UPDATE : JObj := [("cmd", .num 200)]

def CMD_RAIN_DELAY : JObj := [("cmd", .num 205)]

def RESP_ROBOT_STATUS : Int := 501

def RESP_RAIN_STATUS : Int := 505

def DEVICE_MANUFACTURER : String := "Sunseeker"

/-! ### Coordinator state (`__init__.py`, `SunseekerCoordinator`) -/

/-- `homeassistant.helpers.device_registry.DeviceInfo` as populated by
`_update_device_info`. -/
structure DeviceInfo where
  identifiers : List (String × String)
  name : String
  manufacturer : String
  model : JVal
  sw_version : String

/-- The mutable attributes of `SunseekerCoordinator` that the verified
behaviour depends on.  `clientAlive` is `self._mqtt_client is not None`,
`connected` is `self._connected`, `data` is the coordinator's published
snapshot (set by `async_set_updated_data`). -/
structure CoordState where
  deviceId : String
  topicBase : String
  connected : Bool
  clientAlive : Bool
  statusData : JObj
  rainData : JObj
  deviceInfo : Option DeviceInfo
  data : Option JObj

/-- `TOPIC_COMMAND.format(prefix=..., device_id=...)`. -/
def commandTopic (s : CoordState) : String :=
  "/" ++ s.topicBase ++ "/" ++ s.deviceId ++ "/get"

/-- `TOPIC_RESPONSE.format(prefix=..., device_id=...)`. -/
def responseTopic (s : CoordState) : String :=
  "/" ++ s.topicBase ++ "/" ++ s.deviceId ++ "/update"

/-- The merged snapshot `{**self._status_data, **self._rain_data}`. -/
def mergedSnapshot (s : CoordState) : JObj :=
  pyMerge s.statusData s.rainData

/-- `_update_device_info`: derive static identity fields from a
robot-status message. -/
def deriveDeviceInfo (deviceId : String) (fields : JObj) : DeviceInfo :=
  { identifiers := [(DOMAIN, deviceId)]
    name := "Sunseeker Lawn Mower (" ++ deviceId ++ ")"
    manufacturer := DEVICE_MANUFACTURER
    model := (objGet fields "model").getD (.str "Unknown")
    sw_version := pyStr ((objGet fields "version").getD (.str "Unknown")) }

/-- Exceptions that `_async_handle_mqtt_message`'s body can raise; they are
all caught by its `except` clauses. -/
inductive PyErr where
  | jsonDecodeError
  | attributeError

/-- The `try` body of `_async_handle_mqtt_message`.  The argument is the
result of `json.loads` on the decoded payload (`none` = the decode raised).
On `cmd == 501` it replaces `_status_data`, publishes the merged snapshot,
and derives device info if not yet present; on `cmd == 505` it replaces
`_rain_data` and publishes; any other `cmd` is ignored.  Calling `.get` on
a non-dict raises `AttributeError`. -/
def handleMessageBody (s : CoordState) (parsed : Option JVal) :
    Except PyErr CoordState :=
  match parsed with
  | none => .error .jsonDecodeError
  | some (.obj fields) =>
      if pyEqOpt (objGet fields "cmd") RESP_ROBOT_STATUS then
        let s1 : CoordState :=
          { s with statusData := fields, data := some (pyMerge fields s.rainData) }
        if s1.deviceInfo.isNone then
          .ok { s1 with deviceInfo := some (deriveDeviceInfo s1.deviceId fields) }
        else
          .ok s1
      else if pyEqOpt (objGet fields "cmd") RESP_RAIN_STATUS then
        .ok { s with rainData := fields, data := some (pyMerge s.statusData fields) }
      else
        .ok s
  | some _ => .error .attributeError

/-- `_async_handle_mqtt_message`: the body wrapped in
`except json.JSONDecodeError` / `except Exception`, both of which only log,
so every raised error leaves the state unchanged. -/
def handleMessage (s : CoordState) (parsed : Option JVal) : CoordState :=
  match handleMessageBody s parsed with
  | .ok s2 => s2
  | .error _ => s

/-- Ingest one successfully parsed JSON object message. -/
def ingestObj (s : CoordState) (fields : JObj) : CoordState :=
  handleMessage s (some (.obj fields))

/-- Ingest a whole sequence of inbound messages in arrival order. -/
def ingestAll (s : CoordState) (msgs : List (Option JVal)) : CoordState :=
  msgs.foldl handleMessage s

/-! ### JSON serialisation (`json.dumps` with default separators) -/

mutual

/-- `json.dumps` on a JSON value (string escaping omitted: the payloads
the integration serialises contain only plain words). -/
def jsonDumps : JVal → String
  | .null => "null"
  | .bool true => "true"
  | .bool false => "false"
  | .num n => toString n
  | .str s => "\"" ++ s ++ "\""
  | .arr xs => "[" ++ jsonDumpsList xs ++ "]"
  | .obj fs => "\x7b" ++ jsonDumpsFields fs ++ "\x7d"

def jsonDumpsList : List JVal → String
  | [] => ""
  | [x] => jsonDumps x
  | x :: y :: xs => jsonDumps x ++ ", " ++ jsonDumpsList (y :: xs)

def jsonDumpsFields : List (String × JVal) → String
  | [] => ""
  | [kv] => "\"" ++ kv.1 ++ "\": " ++ jsonDumps kv.2
  | kv :: f :: fs => "\"" ++ kv.1 ++ "\": " ++ jsonDumps kv.2 ++ ", " ++ jsonDumpsFields (f :: fs)

end

/-! ### Command path (`async_send_command`, `_async_update_data`) -/

/-- `ConnectionError("MQTT client not connected")`. -/
inductive SendError where
  | notConnected

/-- `UpdateFailed`, the retryable failure understood by the
`DataUpdateCoordinator` refresh machinery. -/
inductive UpdateError where
  | updateFailed (msg : String)

/-- `async_send_command`: raises `ConnectionError` when the client is gone
or not connected (publishing nothing); otherwise publishes exactly one
message — the JSON encoding of the command — on the command topic. -/
def sendCommand (s : CoordState) (command : JObj) :
    Except SendError (String × String) :=
  if !s.clientAlive || !s.connected then
    .error .notConnected
  else
    .ok (commandTopic s, jsonDumps (.obj command))

/-- `_async_update_data`: fails with `UpdateFailed` when not connected
(sending nothing); otherwise sends the status request then (after
`asyncio.sleep(0.5)`) the rain request, and returns the merged cached data
`{**self._status_data, **self._rain_data}` as it stands — it does not wait
for any inbound message.  Any exception from the sends is converted to
`UpdateFailed`.  The second component lists the messages published. -/
def updateData (s : CoordState) :
    Except UpdateError JObj × List (String × String) :=
  if !s.connected then
    (.error (.updateFailed "MQTT not connected"), [])
  else
    match sendCommand s CMD_STATUS_UPDATE with
    | .error _ => (.error (.updateFailed "Error communicating with mower"), [])
    | .ok m1 =>
      match sendCommand s CMD_RAIN_DELAY with
      | .error _ => (.error (.updateFailed "Error communicating with mower"), [m1])
      | .ok m2 => (.ok (pyMerge s.statusData s.rainData), [m1, m2])

/-! ### Services (`async_setup_services`) -/

/-- One slot of `set_schedule_service`:
`{"start": int(slot["start"]), "end": int(slot["end"])}`.  A missing key
raises `KeyError`, a non-dict slot raises `TypeError`, a non-coercible
value raises `ValueError`/`TypeError`; all are modelled as `none`. -/
def buildSlot (slot : JVal) : Option JObj :=
  match slot with
  | .obj fs =>
    match objGet fs "start", objGet fs "end" with
    | some sv, some ev =>
      match pyInt sv, pyInt ev with
      | some si, some ei => some [("start", .num si), ("end", .num ei)]
      | _, _ => none
    | _, _ => none
  | _ => none

/-- `Option`-valued traversal of a list (the semantics of a Python list
comprehension whose element expression may raise). -/
def optMapM (f : α → Option β) : List α → Option (List β)
  | [] => some []
  | x :: xs =>
    match f x with
    | none => none
    | some y => (optMapM f xs).map (y :: ·)

/-- The per-day value built by `set_schedule_service` when the day is
present in the call data:
`{"slice": [...], "trimming": day_schedule.get("trimming", True)}`. -/
def buildDay (daySchedule : JVal) : Option JObj :=
  match daySchedule with
  | .obj fs =>
    match pyIter ((objGet fs "slots").getD (.arr [])) with
    | some items =>
      (optMapM buildSlot items).map (fun slices =>
        [("slice", JVal.arr (slices.map JVal.obj)),
         ("trimming", (objGet fs "trimming").getD (.bool true))])
    | none => none
  | _ => none

/-- Python `s.lower()` (ASCII; the day keys are ASCII words). -/
def pyLower (s : String) : String :=
  String.mk (s.data.map Char.toLower)

/-- `schedule_data[day]` for one fixed day key: the built per-day object
when `day.lower()` is in the call data, the empty object otherwise. -/
def dayField (callData : JObj) (day : String) : Option JVal :=
  match objGet callData (pyLower day) with
  | some ds => (buildDay ds).map JVal.obj
  | none => some (JVal.obj [])

/-- The fixed day-key list of `set_schedule_service`. -/
def days : List String := ["Mon", "Tue", "Wed", "Thu", "Fri", "Sat", "Sun"]

/-- The `schedule_data` dict built by `set_schedule_service` before any
publish, with the `for day in days` loop unrolled over its fixed literal
list.  `none` = the building raised, so nothing is ever sent. -/
def buildSchedule (callData : JObj) : Option JObj :=
  (dayField callData "Mon").bind (fun mon =>
  (dayField callData "Tue").bind (fun tue =>
  (dayField callData "Wed").bind (fun wed =>
  (dayField callData "Thu").bind (fun thu =>
  (dayField callData "Fri").bind (fun fri =>
  (dayField callData "Sat").bind (fun sat =>
  (dayField callData "Sun").bind (fun sun =>
  some [("cmd", JVal.num 103),
        ("auto", (objGet callData "auto").getD (JVal.bool false)),
        ("pause", (objGet callData "pause").getD (JVal.bool false)),
        ("Mon", mon), ("Tue", tue), ("Wed", wed), ("Thu", thu),
        ("Fri", fri), ("Sat", sat), ("Sun", sun)])))))))

/-- `set_schedule_service`: build the schedule dict, then send it.  The
first component reports success/raise, the second lists what was
published. -/
def setScheduleService (s : CoordState) (callData : JObj) :
    Except Unit Unit × List (String × String) :=
  match buildSchedule callData with
  | none => (.error (), [])
  | some msg =>
    match sendCommand s msg with
    | .error _ => (.error (), [])
    | .ok m => (.ok (), [m])

/-- The command dict built by `set_rain_delay_service`. -/
def buildRainDelayCommand (callData : JObj) : JObj :=
  [("cmd", .num 105),
   ("rain_en", (objGet callData "enabled").getD (.bool true)),
   ("rain_delay_set", (objGet callData "delay_minutes").getD (.num 180))]

/-- `set_rain_delay_service`. -/
def setRainDelayService (s : CoordState) (callData : JObj) :
    Except SendError (String × String) :=
  sendCommand s (buildRainDelayCommand callData)

/-- The command dict built by `edge_cut_service`: `{"cmd": 101, "mode": 4}`. -/
def edgeCutCommand : JObj := [("cmd", .num 101), ("mode", .num 4)]

/-! ### Config flow (`config_flow.py`) -/

/-- `ValueError("Device ID cannot be empty")`. -/
inductive ConfigError where
  | valueError (msg : String)

/-- `validate_input`: strips the device identifier, rejects an empty
result, otherwise returns the title and the stripped identifier.  It
attempts no broker connection (the function touches no network object). -/
def validate_input (name deviceId : String) :
    Except ConfigError (String × String) :=
  let d := pyStrip deviceId
  if d = "" then .error (.valueError "Device ID cannot be empty")
  else .ok (name, d)

/-- Result of one step of the config flow. -/
inductive FlowResult where
  | createEntry (title : String) (deviceId : String)
  | showForm (errorBase : Option String)
  | abortFlow

/-- `ConfigFlow.async_step_user`: no input shows the form; a `ValueError`
from validation shows the form with the `invalid_device_id` error; a
device id that is already configured aborts; otherwise an entry is
created with the validated title and the raw user input. -/
def async_step_user (userInput : Option (String × String))
    (alreadyConfigured : Bool) : FlowResult :=
  match userInput with
  | none => .showForm none
  | some nd =>
    match validate_input nd.1 nd.2 with
    | .error _ => .showForm (some "invalid_device_id")
    | .ok info =>
      if alreadyConfigured then .abortFlow
      else .createEntry info.1 nd.2

/-! ### Lawn mower activity (`lawn_mower.py`, `SunseekerLawnMower.activity`) -/

/-- `homeassistant.components.lawn_mower.LawnMowerActivity` (the members
this integration can return). -/
inductive LawnMowerActivity where
  | docked
  | mowing
  | paused
  | error
deriving DecidableEq

/-- `MODE_TO_STATE.get(mode, "paused")`: Python dict lookup with `==` key
equality, so `True` matches the key `1` and `False` the key `0`. -/
def modeToStateGet (mode : JVal) : String :=
  if pyEqInt mode 0 then "paused"
  else if pyEqInt mode 1 then "mowing"
  else if pyEqInt mode 2 then "docked"
  else if pyEqInt mode 4 then "mowing"
  else "paused"

/-- `SunseekerLawnMower.activity`: `None` without data (a missing or empty
coordinator snapshot is falsy), `DOCKED` whenever `station` is truthy,
otherwise the `MODE_TO_STATE` mapping of `mode` (default `0`). -/
def activity (data : Option JObj) : Option LawnMowerActivity :=
  match data with
  | none => none
  | some d =>
    if d.isEmpty then none
    else
      let mode := (objGet d "mode").getD (.num 0)
      let station := (objGet d "station").getD (.bool false)
      if truthy station then some .docked
      else
        let st := modeToStateGet mode
        if st = "mowing" then some .mowing
        else if st = "docked" then some .docked
        else if st = "paused" then some .paused
        else some .error

/-! ### JSON parsing (`json.loads`, restricted to the integer/word
fragment the integration's command payloads live in) -/

/-- Skip JSON insignificant whitespace. -/
def skipWs : List Char → List Char
  | c :: cs =>
    if c == ' ' || c == '\t' || c == '\n' || c == '\r' then skipWs cs
    else c :: cs
  | [] => []

/-- Body of a JSON string after the opening quote (no escapes, as in the
payloads at hand). -/
def parseStringBody : List Char → Option (String × List Char)
  | [] => none
  | '"' :: rest => some ("", rest)
  | c :: rest => (parseStringBody rest).map (fun p => (String.mk (c :: p.1.data), p.2))

/-- Consume a run of digits, accumulating its value. -/
def parseNumTail : List Char → Nat → Nat × List Char
  | c :: cs, acc =>
    if c.isDigit then parseNumTail cs (acc * 10 + (c.toNat - 48)) else (acc, c :: cs)
  | [], acc => (acc, [])

/-- A JSON integer: optional minus sign then digits. -/
def parseNum : List Char → Option (Int × List Char)
  | '-' :: c :: cs =>
    if c.isDigit then
      let p := parseNumTail cs (c.toNat - 48)
      some (-(Int.ofNat p.1), p.2)
    else none
  | c :: cs =>
    if c.isDigit then
      let p := parseNumTail cs (c.toNat - 48)
      some (Int.ofNat p.1, p.2)
    else none
  | [] => none

mutual

/-- Parse one JSON value; the fuel bounds nesting and is in practice the
input length. -/
def parseVal : Nat → List Char → Option (JVal × List Char)
  | 0, _ => none
  | fuel + 1, cs =>
    match skipWs cs with
    | 'n' :: 'u' :: 'l' :: 'l' :: rest => some (.null, rest)
    | 't' :: 'r' :: 'u' :: 'e' :: rest => some (.bool true, rest)
    | 'f' :: 'a' :: 'l' :: 's' :: 'e' :: rest => some (.bool false, rest)
    | '"' :: rest => (parseStringBody rest).map (fun p => (.str p.1, p.2))
    | '[' :: rest =>
      (match skipWs rest with
       | ']' :: rest2 => some (.arr [], rest2)
       | cs2 => (parseArrItems fuel cs2).map (fun p => (.arr p.1, p.2)))
    | '\x7b' :: rest =>
      (match skipWs rest with
       | '\x7d' :: rest2 => some (.obj [], rest2)
       | cs2 => (parseObjFields fuel cs2).map (fun p => (.obj p.1, p.2)))
    | cs2 => (parseNum cs2).map (fun p => (.num p.1, p.2))

/-- Parse the elements of a non-empty JSON array up to `]`. -/
def parseArrItems : Nat → List Char → Option (List JVal × List Char)
  | 0, _ => none
  | fuel + 1, cs =>
    match parseVal fuel cs with
    | none => none
    | some (v, rest) =>
      match skipWs rest with
      | ',' :: rest2 => (parseArrItems fuel rest2).map (fun p => (v :: p.1, p.2))
      | ']' :: rest2 => some ([v], rest2)
      | _ => none

/-- Parse the fields of a non-empty JSON object up to the closing brace. -/
def parseObjFields : Nat → List Char → Option (List (String × JVal) × List Char)
  | 0, _ => none
  | fuel + 1, cs =>
    match skipWs cs with
    | '"' :: rest =>
      (match parseStringBody rest with
       | none => none
       | some (k, rest2) =>
         match skipWs rest2 with
         | ':' :: rest3 =>
           (match parseVal fuel rest3 with
            | none => none
            | some (v, rest4) =>
              match skipWs rest4 with
              | ',' :: rest5 => (parseObjFields fuel rest5).map (fun p => ((k, v) :: p.1, p.2))
              | '\x7d' :: rest5 => some ([(k, v)], rest5)
              | _ => none)
         | _ => none)
    | _ => none

end

/-- `json.loads`: parse one value and require only whitespace after it. -/
def jsonLoads (s : String) : Option JVal :=
  match parseVal (s.length + 1) s.data with
  | some (v, rest) => if skipWs rest = [] then some v else none
  | none => none

/-- Payloads whose handling takes no mutating branch: unparseable input,
non-dict JSON, and dict JSON whose `cmd` is missing or neither 501 nor
505. -/
def ignoredPayload (parsed : Option JVal) : Bool :=
  match parsed with
  | none => true
  | some (.obj fields) =>
      !(pyEqOpt (objGet fields "cmd") RESP_ROBOT_STATUS) &&
      !(pyEqOpt (objGet fields "cmd") RESP_RAIN_STATUS)
  | some _ => true

/-- A slot dict carrying `start` and `end` values of which at least one
cannot be coerced by Python `int()`. -/
def slotBad (slot : JVal) : Bool :=
  match slot with
  | .obj fs =>
    match objGet fs "start", objGet fs "end" with
    | some sv, some ev => (pyInt sv).isNone || (pyInt ev).isNone
    | _, _ => false
  | _ => false

/-- A supplied per-day schedule one of whose slots is bad. -/
def dayHasBadSlot (ds : JVal) : Bool :=
  match ds with
  | .obj fs =>
    match pyIter ((objGet fs "slots").getD (.arr [])) with
    | some items => items.any slotBad
    | none => false
  | _ => false

/-! ### Theorems -/

theorem objGet_some_not_isEmpty {d : JObj} {k : String} {v : JVal}
    (h : objGet d k = some v) : d.isEmpty = false := by
  cases d with
  | nil => simp [objGet] at h
  | cons p rest => rfl

/-- C6: the command-encoder constants round-trip exactly through JSON
encode/decode, with the documented `cmd`/`mode` values and no extra
fields. -/
theorem c6_command_constants_roundtrip :
    jsonLoads (jsonDumps (.obj CMD_START_MOWING)) =
      some (.obj [("cmd", .num 101), ("mode", .num 1)]) ∧
    jsonLoads (jsonDumps (.obj CMD_STOP)) =
      some (.obj [("cmd", .num 101), ("mode", .num 0)]) ∧
    jsonLoads (jsonDumps (.obj CMD_RETURN_DOCK)) =
      some (.obj [("cmd", .num 101), ("mode", .num 2)]) ∧
    jsonLoads (jsonDumps (.obj edgeCutCommand)) =
      some (.obj [("cmd", .num 101), ("mode", .num 4)]) ∧
    jsonLoads (jsonDumps (.obj CMD_STATUS_UPDATE)) =
      some (.obj [("cmd", .num 200)]) ∧
    jsonLoads (jsonDumps (.obj CMD_RAIN_DELAY)) =
      some (.obj [("cmd", .num 205)]) :=
  ⟨rfl, rfl, rfl, rfl, rfl, rfl⟩

/-- C4: a payload that is not valid JSON, or is valid JSON that is not a
dict, or whose `cmd` is missing or unrecognized, leaves the coordinator
state (both halves and the merged snapshot) unchanged; the handler's
`except` clauses absorb every raised error, so nothing propagates. -/
theorem c4_malformed_payload_ignored (s : CoordState) (p : Option JVal)
    (h : ignoredPayload p = true) : handleMessage s p = s := by
  cases p with
  | none => rfl
  | some v =>
    cases v with
    | obj fields =>
      simp only [ignoredPayload, Bool.and_eq_true, Bool.not_eq_true'] at h
      simp [handleMessage, handleMessageBody, h.1, h.2]
    | null => rfl
    | bool b => rfl
    | num n => rfl
    | str t => rfl
    | arr xs => rfl

/-- C5: with the transport not connected, the refresh fails at once with
the retryable `UpdateFailed("MQTT not connected")` and publishes nothing,
and any command send raises `ConnectionError` publishing nothing. -/
theorem c5_not_connected_fails_fast (s : CoordState) (command : JObj)
    (h : s.connected = false) :
    updateData s = (.error (.updateFailed "MQTT not connected"), []) ∧
    sendCommand s command = .error .notConnected := by
  constructor
  · simp [updateData, h]
  · simp [sendCommand, h]

/-- C8: an empty or whitespace-only device identifier is rejected by
`validate_input` with a `ValueError` (surfaced by `async_step_user` as the
`invalid_device_id` form error, never creating an entry) before any broker
connection is attempted — `validate_input` performs no connection at all;
a non-empty identifier validates successfully to its stripped form. -/
theorem c8_device_id_validation (name deviceId : String) :
    (pyStrip deviceId = "" →
      validate_input name deviceId =
        .error (.valueError "Device ID cannot be empty") ∧
      async_step_user (some (name, deviceId)) false =
        .showForm (some "invalid_device_id")) ∧
    (pyStrip deviceId ≠ "" →
      validate_input name deviceId = .ok (name, pyStrip deviceId)) := by
  constructor
  · intro h
    constructor
    · simp [validate_input, h]
    · simp [async_step_user, validate_input, h]
  · intro h
    simp [validate_input, h]

/-- C10: `set_rain_delay_service` silently defaults omitted parameters —
no `enabled` gives `rain_en = true`, no `delay_minutes` gives
`rain_delay_set = 180` — supplied values pass through, and the published
command has exactly the shape
`\x7bcmd: 105, rain_en: _, rain_delay_set: _\x7d`. -/
theorem c10_rain_delay_defaults (s : CoordState) (callData : JObj) :
    (objGet callData "enabled" = none →
      objGet (buildRainDelayCommand callData) "rain_en" = some (.bool true)) ∧
    (objGet callData "delay_minutes" = none →
      objGet (buildRainDelayCommand callData) "rain_delay_set" = some (.num 180)) ∧
    (∀ v, objGet callData "enabled" = some v →
      objGet (buildRainDelayCommand callData) "rain_en" = some v) ∧
    (∀ v, objGet callData "delay_minutes" = some v →
      objGet (buildRainDelayCommand callData) "rain_delay_set" = some v) ∧
    objGet (buildRainDelayCommand callData) "cmd" = some (.num 105) ∧
    (buildRainDelayCommand callData).map Prod.fst =
      ["cmd", "rain_en", "rain_delay_set"] ∧
    (s.connected = true → s.clientAlive = true →
      setRainDelayService s callData =
        .ok (commandTopic s, jsonDumps (.obj (buildRainDelayCommand callData)))) := by
  refine ⟨?_, ?_, ?_, ?_, ?_, ?_, ?_⟩
  · intro h; simp [buildRainDelayCommand, objGet, h]
  · intro h; simp [buildRainDelayCommand, objGet, h]
  · intro v h; simp [buildRainDelayCommand, objGet, h]
  · intro v h; simp [buildRainDelayCommand, objGet, h]
  · rfl
  · rfl
  · intro hc ha; simp [setRainDelayService, sendCommand, hc, ha]

theorem ingestObj_robot (s : CoordState) (fields : JObj)
    (h : pyEqOpt (objGet fields "cmd") RESP_ROBOT_STATUS = true) :
    (ingestObj s fields).statusData = fields ∧
    (ingestObj s fields).rainData = s.rainData ∧
    (ingestObj s fields).data = some (pyMerge fields s.rainData) := by
  unfold ingestObj handleMessage handleMessageBody
  by_cases hd : s.deviceInfo.isNone <;> simp [h, hd]

theorem ingestObj_rain (s : CoordState) (fields : JObj)
    (h501 : pyEqOpt (objGet fields "cmd") RESP_ROBOT_STATUS = false)
    (h : pyEqOpt (objGet fields "cmd") RESP_RAIN_STATUS = true) :
    (ingestObj s fields).rainData = fields ∧
    (ingestObj s fields).statusData = s.statusData ∧
    (ingestObj s fields).data = some (pyMerge s.statusData fields) := by
  unfold ingestObj handleMessage handleMessageBody
  simp [h501, h]

theorem pyEqOpt_ne (o : Option JVal) {a b : Int} (hab : a ≠ b)
    (h : pyEqOpt o a = true) : pyEqOpt o b = false := by
  cases o with
  | none => simp [pyEqOpt] at h
  | some v =>
    cases v <;> simp [pyEqOpt, pyEqInt] at h ⊢ <;> omega

/-- C2: ingesting a valid `cmd=501` payload replaces the robot-status half
and leaves every previously stored rain-status field untouched in the
merged snapshot; ingesting a valid `cmd=505` payload replaces the
rain-status half and leaves the robot-status half untouched (visible in
the merge wherever the rain message does not override); the merged
snapshot is always the shallow union with rain fields last, so a rain
field overrides a same-named robot field. -/
theorem c2_ingest_merge_semantics (s : CoordState) (fields : JObj) :
    (pyEqOpt (objGet fields "cmd") RESP_ROBOT_STATUS = true →
      (ingestObj s fields).statusData = fields ∧
      (ingestObj s fields).rainData = s.rainData ∧
      (ingestObj s fields).data = some (mergedSnapshot (ingestObj s fields)) ∧
      (∀ k v, objGet s.rainData k = some v →
        objGet (mergedSnapshot (ingestObj s fields)) k = some v) ∧
      (∀ k, objGet (mergedSnapshot (ingestObj s fields)) k =
        ((objGet s.rainData k).orElse (fun _ => objGet fields k)))) ∧
    (pyEqOpt (objGet fields "cmd") RESP_RAIN_STATUS = true →
      (ingestObj s fields).rainData = fields ∧
      (ingestObj s fields).statusData = s.statusData ∧
      (ingestObj s fields).data = some (mergedSnapshot (ingestObj s fields)) ∧
      (∀ k v, objGet s.statusData k = some v → objGet fields k = none →
        objGet (mergedSnapshot (ingestObj s fields)) k = some v) ∧
      (∀ k, objGet (mergedSnapshot (ingestObj s fields)) k =
        ((objGet fields k).orElse (fun _ => objGet s.statusData k)))) := by
  constructor
  · intro h
    obtain ⟨h1, h2, h3⟩ := ingestObj_robot s fields h
    refine ⟨h1, h2, ?_, ?_, ?_⟩
    · rw [h3, mergedSnapshot, h1, h2]
    · intro k v hk
      rw [mergedSnapshot, h1, h2, objGet_pyMerge, hk]
      rfl
    · intro k
      rw [mergedSnapshot, h1, h2, objGet_pyMerge]
  · intro h
    have h501 : pyEqOpt (objGet fields "cmd") RESP_ROBOT_STATUS = false := by
      have := pyEqOpt_ne (objGet fields "cmd")
        (show RESP_RAIN_STATUS ≠ RESP_ROBOT_STATUS by decide) h
      exact this
    obtain ⟨h1, h2, h3⟩ := ingestObj_rain s fields h501 h
    refine ⟨h1, h2, ?_, ?_, ?_⟩
    · rw [h3, mergedSnapshot, h1, h2]
    · intro k v hk hn
      rw [mergedSnapshot, h1, h2, objGet_pyMerge, hn, hk]
      rfl
    · intro k
      rw [mergedSnapshot, h1, h2, objGet_pyMerge]

theorem handleMessage_deviceInfo_mono (s : CoordState) (p : Option JVal)
    (h : s.deviceInfo.isSome = true) :
    (handleMessage s p).deviceInfo = s.deviceInfo := by
  have hn : s.deviceInfo.isNone = false := by
    cases hd : s.deviceInfo <;> simp_all
  cases p with
  | none => rfl
  | some v =>
    cases v with
    | obj fields =>
      unfold handleMessage handleMessageBody
      by_cases h501 : pyEqOpt (objGet fields "cmd") RESP_ROBOT_STATUS
      · simp [h501, hn]
      · by_cases h505 : pyEqOpt (objGet fields "cmd") RESP_RAIN_STATUS <;>
          simp [h501, h505]
    | null => rfl
    | bool b => rfl
    | num n => rfl
    | str t => rfl
    | arr xs => rfl

theorem ingestAll_deviceInfo_mono (s : CoordState) (msgs : List (Option JVal))
    (h : s.deviceInfo.isSome = true) :
    (ingestAll s msgs).deviceInfo = s.deviceInfo := by
  induction msgs generalizing s with
  | nil => rfl
  | cons m rest ih =>
    have hstep := handleMessage_deviceInfo_mono s m h
    have hsome : (handleMessage s m).deviceInfo.isSome = true := by
      rw [hstep]; exact h
    calc (ingestAll s (m :: rest)).deviceInfo
        = (ingestAll (handleMessage s m) rest).deviceInfo := rfl
      _ = (handleMessage s m).deviceInfo := ih (handleMessage s m) hsome
      _ = s.deviceInfo := hstep

/-- C7: the static device identity is derived exactly once — a first
successfully ingested `cmd=501` message sets it from that message's
`model`/`version` fields, and once `device_info` is non-empty no sequence
of further messages ever changes it. -/
theorem c7_device_info_once (s : CoordState) (msgs : List (Option JVal))
    (fields : JObj) :
    (s.deviceInfo.isSome = true →
      (ingestAll s msgs).deviceInfo = s.deviceInfo) ∧
    (s.deviceInfo = none →
      pyEqOpt (objGet fields "cmd") RESP_ROBOT_STATUS = true →
      (ingestObj s fields).deviceInfo =
        some (deriveDeviceInfo s.deviceId fields)) := by
  constructor
  · exact ingestAll_deviceInfo_mono s msgs
  · intro hnone hcmd
    unfold ingestObj handleMessage handleMessageBody
    simp [hcmd, hnone]

theorem modeToStateGet_cases (v : JVal) :
    modeToStateGet v = "paused" ∨ modeToStateGet v = "mowing" ∨
      modeToStateGet v = "docked" := by
  unfold modeToStateGet
  split_ifs <;> simp

/-- C9: the lawn-mower activity is `DOCKED` whenever `station` is truthy
regardless of `mode`; with a falsy station any integer mode outside
`\x7b0, 1, 2, 4\x7d` yields `PAUSED`; and the `ERROR` branch is
unreachable — the activity is always `None`, `DOCKED`, `MOWING` or
`PAUSED`. -/
theorem c9_activity_classification (d : JObj) :
    (∀ st, objGet d "station" = some st → truthy st = true →
      activity (some d) = some .docked) ∧
    (∀ m : Int, objGet d "mode" = some (.num m) →
      truthy ((objGet d "station").getD (.bool false)) = false →
      m ≠ 0 → m ≠ 1 → m ≠ 2 → m ≠ 4 →
      activity (some d) = some .paused) ∧
    (∀ od : Option JObj, activity od ≠ some .error ∧
      (activity od = none ∨ activity od = some .docked ∨
       activity od = some .mowing ∨ activity od = some .paused)) := by
  refine ⟨?_, ?_, ?_⟩
  · intro st hst htr
    have he := objGet_some_not_isEmpty hst
    simp [activity, he, hst, htr]
  · intro m hm hstation h0 h1 h2 h4
    have he := objGet_some_not_isEmpty hm
    have hmts : modeToStateGet (.num m) = "paused" := by
      simp [modeToStateGet, pyEqInt, h0, h1, h2, h4]
    simp [activity, he, hm, hstation, hmts]
  · intro od
    have hall : activity od = none ∨ activity od = some .docked ∨
        activity od = some .mowing ∨ activity od = some .paused := by
      cases od with
      | none => left; rfl
      | some d0 =>
        unfold activity
        by_cases he : d0.isEmpty
        · simp [he]
        · simp only [he, Bool.false_eq_true, if_false]
          by_cases hs : truthy ((objGet d0 "station").getD (.bool false))
          · simp [hs]
          · simp only [hs, Bool.false_eq_true, if_false]
            rcases modeToStateGet_cases ((objGet d0 "mode").getD (.num 0)) with
              hm | hm | hm <;> simp [hm]
    refine ⟨?_, hall⟩
    rcases hall with h | h | h | h <;> simp [h]

/-- C1 (amended): a refresh started while connected sends the status
request then the rain-status request and immediately returns the merged
cached data as it stands, without waiting for any inbound update; a
refresh started while not connected fails with the retryable
`UpdateFailed` before sending anything. -/
theorem c1_refresh_returns_cached_without_waiting (s : CoordState) :
    (s.connected = true → s.clientAlive = true →
      updateData s = (.ok (pyMerge s.statusData s.rainData),
        [(commandTopic s, jsonDumps (.obj CMD_STATUS_UPDATE)),
         (commandTopic s, jsonDumps (.obj CMD_RAIN_DELAY))])) ∧
    (s.connected = false →
      updateData s = (.error (.updateFailed "MQTT not connected"), [])) := by
  constructor
  · intro hc ha
    simp [updateData, sendCommand, hc, ha]
  · intro hc
    simp [updateData, hc]

/-- A connected coordinator holding previously cached (stale) halves, with
no new inbound message arriving during the refresh cycle. -/
def staleState : CoordState :=
  { deviceId := "dev1"
    topicBase := DEFAULT_TOPIC_BASE
    connected := true
    clientAlive := true
    statusData := [("cmd", .num 501), ("mode", .num 1), ("power", .num 50)]
    rainData := [("cmd", .num 505), ("rain_en", .bool true)]
    deviceInfo := none
    data := some [("cmd", .num 505), ("mode", .num 1), ("power", .num 50),
                  ("rain_en", .bool true)] }

/-- C1 counterexample: at `staleState` no update has arrived during the
cycle, yet the refresh does not fail with a retryable timed-out error —
it succeeds, returning exactly the stale merged snapshot, after publishing
the two requests.  The update function never waits on the Status Cache. -/
theorem c1_counterexample_returns_stale_snapshot :
    (updateData staleState).1 =
      Except.ok [("cmd", .num 505), ("mode", .num 1), ("power", .num 50),
                 ("rain_en", .bool true)] ∧
    (updateData staleState).2 =
      [("/device/dev1/get", "\x7b\"cmd\": 200\x7d"),
       ("/device/dev1/get", "\x7b\"cmd\": 205\x7d")] :=
  ⟨rfl, rfl⟩

theorem slotBad_buildSlot {slot : JVal} (h : slotBad slot = true) :
    buildSlot slot = none := by
  cases slot with
  | obj fs =>
    simp only [slotBad] at h
    simp only [buildSlot]
    cases hs : objGet fs "start" with
    | none => rfl
    | some sv =>
      cases hev : objGet fs "end" with
      | none => rfl
      | some ev =>
        rw [hs, hev] at h
        simp only [Bool.or_eq_true, Option.isNone_iff_eq_none] at h
        rcases h with h | h
        · simp [h]
        · cases hsi : pyInt sv <;> simp [h]
  | null => simp [slotBad] at h
  | bool b => simp [slotBad] at h
  | num n => simp [slotBad] at h
  | str t => simp [slotBad] at h
  | arr xs => simp [slotBad] at h

theorem optMapM_eq_none {f : α → Option β} {l : List α} {x : α}
    (hx : x ∈ l) (h : f x = none) : optMapM f l = none := by
  induction l with
  | nil => cases hx
  | cons y ys ih =>
    rcases List.mem_cons.mp hx with rfl | hmem
    · simp [optMapM, h]
    · cases hy : f y with
      | none => simp [optMapM, hy]
      | some z => simp [optMapM, hy, ih hmem]

theorem dayHasBadSlot_buildDay {ds : JVal} (h : dayHasBadSlot ds = true) :
    buildDay ds = none := by
  cases ds with
  | obj fs =>
    simp only [dayHasBadSlot] at h
    cases hit : pyIter ((objGet fs "slots").getD (.arr [])) with
    | none => rw [hit] at h; simp at h
    | some items =>
      rw [hit] at h
      simp only [List.any_eq_true] at h
      obtain ⟨slot, hmem, hbad⟩ := h
      have hnone : optMapM buildSlot items = none :=
        optMapM_eq_none hmem (slotBad_buildSlot hbad)
      simp [buildDay, hit, hnone]
  | null => simp [dayHasBadSlot] at h
  | bool b => simp [dayHasBadSlot] at h
  | num n => simp [dayHasBadSlot] at h
  | str t => simp [dayHasBadSlot] at h
  | arr xs => simp [dayHasBadSlot] at h

theorem dayField_none {callData : JObj} {day : String} {ds : JVal}
    (h1 : objGet callData (pyLower day) = some ds) (h2 : buildDay ds = none) :
    dayField callData day = none := by
  simp [dayField, h1, h2]

theorem optBindNone {o : Option α} {f : α → Option β}
    (h : ∀ a, f a = none) : o.bind f = none := by
  cases o <;> simp [h]

theorem buildSchedule_none_of_day {callData : JObj} {d : String}
    (hd : d ∈ days) (h : dayField callData d = none) :
    buildSchedule callData = none := by
  simp only [days, List.mem_cons, List.not_mem_nil, or_false] at hd
  unfold buildSchedule
  rcases hd with rfl | rfl | rfl | rfl | rfl | rfl | rfl
  · rw [h]; rfl
  · apply optBindNone; intro mon
    rw [h]; rfl
  · apply optBindNone; intro mon
    apply optBindNone; intro tue
    rw [h]; rfl
  · apply optBindNone; intro mon
    apply optBindNone; intro tue
    apply optBindNone; intro wed
    rw [h]; rfl
  · apply optBindNone; intro mon
    apply optBindNone; intro tue
    apply optBindNone; intro wed
    apply optBindNone; intro thu
    rw [h]; rfl
  · apply optBindNone; intro mon
    apply optBindNone; intro tue
    apply optBindNone; intro wed
    apply optBindNone; intro thu
    apply optBindNone; intro fri
    rw [h]; rfl
  · apply optBindNone; intro mon
    apply optBindNone; intro tue
    apply optBindNone; intro wed
    apply optBindNone; intro thu
    apply optBindNone; intro fri
    apply optBindNone; intro sat
    rw [h]; rfl

/-- C3: a successfully built schedule command carries the integer cmd code
103 and all seven day keys, a day omitted from the call data yielding an
empty object; and if any supplied day has a slot whose `start` or `end`
cannot be coerced to an integer, the whole call fails with nothing
published at all. -/
theorem c3_schedule_shape_and_atomic_failure (s : CoordState) (callData : JObj) :
    (∀ msg, buildSchedule callData = some msg →
      objGet msg "cmd" = some (.num 103) ∧
      (∀ d, d ∈ days → (objGet msg d).isSome = true) ∧
      (∀ d, d ∈ days → objGet callData (pyLower d) = none →
        objGet msg d = some (.obj []))) ∧
    (∀ d, d ∈ days → ∀ ds, objGet callData (pyLower d) = some ds →
      dayHasBadSlot ds = true →
      buildSchedule callData = none ∧
      setScheduleService s callData = (.error (), [])) := by
  constructor
  · intro msg hmsg
    unfold buildSchedule at hmsg
    simp only [Option.bind_eq_some, Option.some.injEq] at hmsg
    obtain ⟨mon, hM, tue, hT, wed, hW, thu, hTh, fri, hF, sat, hS, sun, hSu, hEq⟩ := hmsg
    subst hEq
    refine ⟨rfl, ?_, ?_⟩
    · intro d hd
      simp only [days, List.mem_cons, List.not_mem_nil, or_false] at hd
      rcases hd with rfl | rfl | rfl | rfl | rfl | rfl | rfl <;> rfl
    · intro d hd h0
      simp only [days, List.mem_cons, List.not_mem_nil, or_false] at hd
      rcases hd with rfl | rfl | rfl | rfl | rfl | rfl | rfl
      · rw [dayField] at hM; rw [h0] at hM
        obtain rfl := (Option.some.inj hM).symm
        rfl
      · rw [dayField] at hT; rw [h0] at hT
        obtain rfl := (Option.some.inj hT).symm
        rfl
      · rw [dayField] at hW; rw [h0] at hW
        obtain rfl := (Option.some.inj hW).symm
        rfl
      · rw [dayField] at hTh; rw [h0] at hTh
        obtain rfl := (Option.some.inj hTh).symm
        rfl
      · rw [dayField] at hF; rw [h0] at hF
        obtain rfl := (Option.some.inj hF).symm
        rfl
      · rw [dayField] at hS; rw [h0] at hS
        obtain rfl := (Option.some.inj hS).symm
        rfl
      · rw [dayField] at hSu; rw [h0] at hSu
        obtain rfl := (Option.some.inj hSu).symm
        rfl
  · intro d hd ds hds hbad
    have hdf : dayField callData d = none :=
      dayField_none hds (dayHasBadSlot_buildDay hbad)
    have hbs : buildSchedule callData = none :=
      buildSchedule_none_of_day hd hdf
    refine ⟨hbs, ?_⟩
    unfold setScheduleService
    rw [hbs]

/-! ### Concrete states and inputs for witnesses -/

/-- `staleState` with the transport reporting not-connected. -/
def disconnectedState : CoordState := { staleState with connected := false }

/-- `staleState` after device info has already been derived. -/
def infoState : CoordState :=
  { staleState with deviceInfo := some (deriveDeviceInfo "dev1" [("model", JVal.str "M1")]) }

/-- A schedule call supplying only Tuesday, with coercible slot values. -/
def schedCallGood : JObj :=
  [("tue", JVal.obj [("slots",
      JVal.arr [JVal.obj [("start", JVal.str "60"), ("end", JVal.num 120)]])])]

/-- A schedule call supplying a Wednesday slot whose `start` is not
coercible to an integer. -/
def schedCallBad : JObj :=
  [("wed", JVal.obj [("slots",
      JVal.arr [JVal.obj [("start", JVal.str "x"), ("end", JVal.num 2)]])])]

/-- The command `buildSchedule` produces from `schedCallGood`. -/
def schedMsg : JObj :=
  [("cmd", .num 103), ("auto", .bool false), ("pause", .bool false),
   ("Mon", .obj []),
   ("Tue", .obj [("slice", .arr [.obj [("start", .num 60), ("end", .num 120)]]),
                 ("trimming", .bool true)]),
   ("Wed", .obj []), ("Thu", .obj []), ("Fri", .obj []), ("Sat", .obj []),
   ("Sun", .obj [])]

/-- Witness for C1 (amended): at the concrete connected `staleState` the
refresh returns the stale merge and publishes the two requests. -/
theorem c1_witness :
    updateData staleState =
      (Except.ok [("cmd", .num 505), ("mode", .num 1), ("power", .num 50),
                  ("rain_en", .bool true)],
       [("/device/dev1/get", "\x7b\"cmd\": 200\x7d"),
        ("/device/dev1/get", "\x7b\"cmd\": 205\x7d")]) :=
  (c1_refresh_returns_cached_without_waiting staleState).1 rfl rfl

/-- Witness for C2 at a concrete robot-status message over `staleState`. -/
theorem c2_witness :
    (ingestObj staleState [("cmd", .num 501), ("mode", .num 2)]).statusData =
      [("cmd", .num 501), ("mode", .num 2)] ∧
    (ingestObj staleState [("cmd", .num 501), ("mode", .num 2)]).rainData =
      staleState.rainData ∧
    objGet (mergedSnapshot (ingestObj staleState
      [("cmd", .num 501), ("mode", .num 2)])) "rain_en" = some (.bool true) :=
  have h := (c2_ingest_merge_semantics staleState
    [("cmd", .num 501), ("mode", .num 2)]).1 rfl
  ⟨h.1, h.2.1, h.2.2.2.1 "rain_en" (.bool true) rfl⟩

/-- Witness for C3: the good call builds the full seven-day shape, the bad
call fails with nothing published. -/
theorem c3_witness :
    objGet schedMsg "cmd" = some (.num 103) ∧
    objGet schedMsg "Mon" = some (.obj []) ∧
    buildSchedule schedCallBad = none ∧
    setScheduleService staleState schedCallBad = (.error (), []) :=
  have hgood := (c3_schedule_shape_and_atomic_failure staleState schedCallGood).1
    schedMsg rfl
  have hbad := (c3_schedule_shape_and_atomic_failure staleState schedCallBad).2
    "Wed" (by decide)
    (JVal.obj [("slots",
      JVal.arr [JVal.obj [("start", JVal.str "x"), ("end", JVal.num 2)]])])
    rfl rfl
  ⟨hgood.1, hgood.2.2 "Mon" (by decide) rfl, hbad.1, hbad.2⟩

/-- Witness for C4 at a non-JSON payload and at an unrecognized cmd. -/
theorem c4_witness :
    handleMessage staleState none = staleState ∧
    handleMessage staleState (some (.obj [("cmd", .num 502)])) = staleState :=
  ⟨c4_malformed_payload_ignored staleState none rfl,
   c4_malformed_payload_ignored staleState (some (.obj [("cmd", .num 502)])) rfl⟩

/-- Witness for C5 at the concrete disconnected state. -/
theorem c5_witness :
    updateData disconnectedState =
      (.error (.updateFailed "MQTT not connected"), []) ∧
    sendCommand disconnectedState CMD_START_MOWING = .error .notConnected :=
  c5_not_connected_fails_fast disconnectedState CMD_START_MOWING rfl

/-- Witness for C7: an existing device info survives a further 501
message, and a first 501 message derives it. -/
theorem c7_witness :
    (ingestAll infoState
      [some (.obj [("cmd", .num 501), ("model", .str "X7")])]).deviceInfo =
      infoState.deviceInfo ∧
    (ingestObj staleState [("cmd", .num 501), ("model", .str "X7")]).deviceInfo =
      some (deriveDeviceInfo "dev1" [("cmd", .num 501), ("model", .str "X7")]) :=
  ⟨(c7_device_info_once infoState
      [some (.obj [("cmd", .num 501), ("model", .str "X7")])] []).1 rfl,
   (c7_device_info_once staleState []
      [("cmd", .num 501), ("model", .str "X7")]).2 rfl rfl⟩

/-- Witness for C8 at a whitespace-only and at a padded identifier. -/
theorem c8_witness :
    validate_input "Mower" "   " =
      .error (.valueError "Device ID cannot be empty") ∧
    async_step_user (some ("Mower", "   ")) false =
      .showForm (some "invalid_device_id") ∧
    validate_input "Mower" " dev42 " = .ok ("Mower", "dev42") :=
  have h1 := (c8_device_id_validation "Mower" "   ").1 rfl
  have h2 := (c8_device_id_validation "Mower" " dev42 ").2 (by decide)
  ⟨h1.1, h1.2, h2⟩

/-- Witness for C9: a truthy station docks regardless of mode, and an
out-of-table integer mode pauses. -/
theorem c9_witness :
    activity (some [("mode", .num 1), ("station", .num 3)]) = some .docked ∧
    activity (some [("mode", .num 7)]) = some .paused :=
  ⟨(c9_activity_classification [("mode", .num 1), ("station", .num 3)]).1
      (.num 3) rfl rfl,
   (c9_activity_classification [("mode", .num 7)]).2.1 7 rfl rfl
      (by decide) (by decide) (by decide) (by decide)⟩

/-- Witness for C10 at an empty service call: both defaults fire. -/
theorem c10_witness :
    objGet (buildRainDelayCommand []) "rain_en" = some (.bool true) ∧
    objGet (buildRainDelayCommand []) "rain_delay_set" = some (.num 180) ∧
    objGet (buildRainDelayCommand []) "cmd" = some (.num 105) :=
  have h := c10_rain_delay_defaults staleState []
  ⟨h.1 rfl, h.2.1 rfl, h.2.2.2.2.1⟩

end Sunseeker
